import Mathlib

/-!
Shallow embedding of the REACT-CPP reactor watchers: `Timer`
(src/include/timer.h), `WriteWatcher` (src/include/watchers/write.h) and
`Synchronizer` (src/include/synchronizer.h).

Timestamps (`ev_tstamp`) are modelled as rationals with exact arithmetic.
Each operation on a watcher returns its C++ return value, the watcher's
state after the call, and the ordered trace of calls the operation makes
into the external multiplexer (libev).  The user callback is not a datum
of the model; where the source invokes it, the model records a boolean
"the callback was invoked here" together with the watcher state at the
moment of invocation.
-/

namespace React

/-- A call made by a watcher into the external multiplexer (libev):
`ev_timer_init`, `ev_timer_set`, `ev_timer_start`, `ev_timer_stop`,
`ev_io_init`, `ev_io_start`, `ev_io_stop`, `ev_async_send`. -/
inductive MuxEvent where
  | timerInit (timeout : ℚ)
  | timerSet (timeout : ℚ)
  | timerStart
  | timerStop
  | ioInit (fd : ℤ)
  | ioStart
  | ioStop
  | asyncSend
  deriving DecidableEq, Repr

/-- The mutable state of a `React::Timer` (src/include/timer.h): the
`_active` flag and the absolute `_expire` timestamp. -/
structure Timer where
  active : Bool
  expire : ℚ
  deriving DecidableEq, Repr

/-- `Timer::start` (timer.h lines 124-134): skip if already running,
otherwise `ev_timer_start` and remember that it is active. -/
def Timer.start (t : Timer) : Bool × Timer × List MuxEvent :=
  if t.active then (false, t, [])
  else (true, { t with active := true }, [MuxEvent.timerStart])

/-- `Timer::cancel` (timer.h lines 140-153): skip if not running,
otherwise `ev_timer_stop` and remember that it no longer is active. -/
def Timer.cancel (t : Timer) : Bool × Timer × List MuxEvent :=
  if t.active then (true, { t with active := false }, [MuxEvent.timerStop])
  else (false, t, [])

/-- `Timer::set` (timer.h lines 160-188).  `now` is `_loop->now()`.
If the timer is active and `now() + timeout < _expire`, only the logical
expire time is updated; otherwise the timer is cancelled, the watcher is
re-initialised with `ev_timer_set(&_watcher, timeout, 0.0)`, the expire
time stored, and the timer started again. -/
def Timer.set (now timeout : ℚ) (t : Timer) : Bool × Timer × List MuxEvent :=
  if t.active = true ∧ now + timeout < t.expire then
    (true, { t with expire := now + timeout }, [])
  else
    let c := t.cancel
    let t2 : Timer := { c.2.1 with expire := now + timeout }
    let s := t2.start
    (s.1, s.2.1, c.2.2 ++ [MuxEvent.timerSet timeout] ++ s.2.2)

/-- `Timer::invoke` (timer.h lines 60-76).  If `_expire <= _loop->now()`
the timer is marked inactive and the user callback fires (first component
`true`, second component the state the callback observes); otherwise the
callback does not fire and `set(_expire - _loop->now())` re-arms the
timer. -/
def Timer.invoke (now : ℚ) (t : Timer) : Bool × Timer × List MuxEvent :=
  if t.expire ≤ now then
    (true, { t with active := false }, [])
  else
    let s := Timer.set now (t.expire - now) t
    (false, s.2.1, s.2.2)

/-- Modelled from the spec: the body of `Timer::initialize` lives in a
translation unit (timer.cpp) that is not among the sources; only its
declaration appears in timer.h line 54.  Per the spec, construction arms
the timer for a relative timeout, so initialisation records the absolute
expire time `now + timeout` and initialises the multiplexer watcher with
the relative timeout (`ev_timer_init`), leaving the timer not yet
started. -/
def Timer.initialize (now timeout : ℚ) : Timer × List MuxEvent :=
  ({ active := false, expire := now + timeout }, [MuxEvent.timerInit timeout])

/-- The `Timer` constructor (timer.h lines 85-95): `initialize(timeout)`
followed by `start()`. -/
def Timer.construct (now timeout : ℚ) : Timer × List MuxEvent :=
  let i := Timer.initialize now timeout
  let s := i.1.start
  (s.2.1, i.2 ++ s.2.2)

/-- The `Timer` destructor (timer.h lines 107-111): it calls `cancel()`. -/
def Timer.destruct (t : Timer) : Timer × List MuxEvent :=
  let c := t.cancel
  (c.2.1, c.2.2)

/-- The mutable state of a `React::WriteWatcher`
(src/include/watchers/write.h): the `_active` flag, plus the file
descriptor held inside the embedded `ev_io` watcher. -/
structure WriteWatcher where
  active : Bool
  fd : ℤ
  deriving DecidableEq, Repr

/-- `WriteWatcher::cancel` (write.h lines 107-120): must be active,
otherwise return false; stop the watcher via `ev_io_stop` and clear the
flag. -/
def WriteWatcher.cancel (w : WriteWatcher) : Bool × WriteWatcher × List MuxEvent :=
  if w.active then (true, { w with active := false }, [MuxEvent.ioStop])
  else (false, w, [])

/-- `WriteWatcher::resume` (write.h lines 126-136): should not be active,
otherwise return false; start it via `ev_io_start` and set the flag. -/
def WriteWatcher.resume (w : WriteWatcher) : Bool × WriteWatcher × List MuxEvent :=
  if w.active then (false, w, [])
  else (true, { w with active := true }, [MuxEvent.ioStart])

/-- `WriteWatcher::invoke` (write.h lines 54-58): it only calls the user
callback (`_callback(this)`); the first component records that the
callback was invoked, the watcher state is returned untouched and no
multiplexer call is made. -/
def WriteWatcher.invoke (w : WriteWatcher) : Bool × WriteWatcher × List MuxEvent :=
  (true, w, [])

/-- Modelled from the spec: the body of `WriteWatcher::initialize` is in a
translation unit (writer.cpp) not among the sources; its declaration is
write.h line 48, and `Reader::initialize` in src/src/reader.cpp shows the
pattern: `ev_io_init` for the given fd (write interest here), leaving the
watcher not yet started. -/
def WriteWatcher.initialize (fd : ℤ) : WriteWatcher × List MuxEvent :=
  ({ active := false, fd := fd }, [MuxEvent.ioInit fd])

/-- The `WriteWatcher` constructor (write.h lines 67-79):
`initialize(fd)` followed by `resume()`. -/
def WriteWatcher.construct (fd : ℤ) : WriteWatcher × List MuxEvent :=
  let i := WriteWatcher.initialize fd
  let r := i.1.resume
  (r.2.1, i.2 ++ r.2.2)

/-- The `WriteWatcher` destructor (write.h lines 91-94): it calls
`cancel()`. -/
def WriteWatcher.destruct (w : WriteWatcher) : WriteWatcher × List MuxEvent :=
  let c := w.cancel
  (c.2.1, c.2.2)

/-- `Synchronizer::synchronize` (synchronizer.h lines 103-107):
`ev_async_send(*_loop, &_watcher); return true;`. -/
def Synchronizer.synchronize : Bool × List MuxEvent :=
  (true, [MuxEvent.asyncSend])

/-- `Synchronizer::operator()()` (synchronizer.h lines 114-117):
`return synchronize();`. -/
def Synchronizer.callOperator : Bool × List MuxEvent :=
  Synchronizer.synchronize

/-- The multiplexer-side registration bit of a timer after a trace of
multiplexer calls: `ev_timer_start` registers, `ev_timer_stop`
deregisters, everything else leaves registration untouched. -/
def timerRegAfter (reg : Bool) : List MuxEvent → Bool
  | [] => reg
  | MuxEvent.timerStart :: es => timerRegAfter true es
  | MuxEvent.timerStop :: es => timerRegAfter false es
  | _ :: es => timerRegAfter reg es

/-- The multiplexer-side registration bit of an io watcher after a trace
of multiplexer calls: `ev_io_start` registers, `ev_io_stop` deregisters,
everything else leaves registration untouched. -/
def ioRegAfter (reg : Bool) : List MuxEvent → Bool
  | [] => reg
  | MuxEvent.ioStart :: es => ioRegAfter true es
  | MuxEvent.ioStop :: es => ioRegAfter false es
  | _ :: es => ioRegAfter reg es

/-- C1: if the timer is active and `now() + timeout` is strictly earlier
than the scheduled `_expire`, `Timer::set(timeout)` returns true and
updates only the logical expire field, with no multiplexer call (no
deregistration or re-registration) and no change to the active flag. -/
theorem timer_set_shorten_updates_expire_only (t : Timer) (now timeout : ℚ)
    (hact : t.active = true) (hlt : now + timeout < t.expire) :
    Timer.set now timeout t = (true, { t with expire := now + timeout }, []) := by
  unfold Timer.set
  rw [if_pos ⟨hact, hlt⟩]

theorem timer_set_shorten_witness :
    Timer.set 0 1 { active := true, expire := 5 } =
      (true, { active := true, expire := (0 : ℚ) + 1 }, []) :=
  timer_set_shorten_updates_expire_only { active := true, expire := 5 } 0 1 rfl (by norm_num)

/-- C5: when the fast path does not apply (timer inactive, or the new
deadline not strictly earlier than `_expire`), `Timer::set(timeout)`
cancels any current registration (the `cancel()` trace), issues
`ev_timer_set(&_watcher, timeout, 0.0)` followed by `ev_timer_start`,
stores `expire = now() + timeout` and leaves the timer started. -/
theorem timer_set_slow_path_rearms (t : Timer) (now timeout : ℚ)
    (h : ¬(t.active = true ∧ now + timeout < t.expire)) :
    Timer.set now timeout t =
      (true, { active := true, expire := now + timeout },
       t.cancel.2.2 ++ [MuxEvent.timerSet timeout, MuxEvent.timerStart]) := by
  unfold Timer.set
  rw [if_neg h]
  rcases t with ⟨a, e⟩
  cases a <;> simp [Timer.cancel, Timer.start]

theorem timer_set_slow_path_witness :
    Timer.set 0 7 { active := true, expire := 5 } =
      (true, { active := true, expire := (0 : ℚ) + 7 },
       ({ active := true, expire := 5 } : Timer).cancel.2.2 ++
         [MuxEvent.timerSet 7, MuxEvent.timerStart]) :=
  timer_set_slow_path_rearms { active := true, expire := 5 } 0 7 (by norm_num)

/-- C7: `WriteWatcher::invoke` forwards to the user callback
unconditionally (first component true) and performs no state transition:
the active flag and the fd are unchanged and no multiplexer call is
made. -/
theorem write_invoke_forwards_without_state_change (w : WriteWatcher) :
    (WriteWatcher.invoke w).1 = true ∧
    (WriteWatcher.invoke w).2.1.active = w.active ∧
    (WriteWatcher.invoke w).2.1.fd = w.fd ∧
    (WriteWatcher.invoke w).2.2 = [] :=
  ⟨rfl, rfl, rfl, rfl⟩

/-- C8: `Synchronizer::operator()()` is equivalent to
`Synchronizer::synchronize()`: the same wake action (`ev_async_send`) on
the multiplexer and the same boolean result `true`. -/
theorem synchronizer_call_operator_is_synchronize :
    Synchronizer.callOperator = Synchronizer.synchronize ∧
    Synchronizer.synchronize = (true, [MuxEvent.asyncSend]) :=
  ⟨rfl, rfl⟩

/-- C9: for every timer state and timeout, `Timer::set` returns true,
and afterwards the timer is active with `expire = now() + timeout`. -/
theorem timer_set_always_succeeds (t : Timer) (now timeout : ℚ) :
    (Timer.set now timeout t).1 = true ∧
    (Timer.set now timeout t).2.1.active = true ∧
    (Timer.set now timeout t).2.1.expire = now + timeout := by
  unfold Timer.set
  by_cases h : t.active = true ∧ now + timeout < t.expire
  · rw [if_pos h]
    exact ⟨rfl, h.1, rfl⟩
  · rw [if_neg h]
    rcases t with ⟨a, e⟩
    cases a <;> simp [Timer.cancel, Timer.start]

/-- C2: `Timer::invoke` fires the user callback exactly when
`_expire <= now()`; when `_expire > now()` the callback does not fire and
the timer is re-armed for the remaining delta `_expire - now()`: the
physical registration is cancelled, `ev_timer_set` is issued with the
delta followed by `ev_timer_start`, and the timer ends active with the
same logical expire time. -/
theorem timer_invoke_fires_iff_expired (t : Timer) (now : ℚ) :
    ((Timer.invoke now t).1 = true ↔ t.expire ≤ now) ∧
    (now < t.expire →
      Timer.invoke now t =
        (false, { active := true, expire := t.expire },
         t.cancel.2.2 ++ [MuxEvent.timerSet (t.expire - now), MuxEvent.timerStart])) := by
  by_cases hle : t.expire ≤ now
  · refine ⟨⟨fun _ => hle, fun _ => ?_⟩, fun hlt => absurd hle (not_le.mpr hlt)⟩
    simp [Timer.invoke, hle]
  · have hkey : ¬(t.active = true ∧ now + (t.expire - now) < t.expire) := by
      rintro ⟨-, hc⟩; linarith
    have harith : now + (t.expire - now) = t.expire := by ring
    refine ⟨?_, fun _ => ?_⟩
    · simp [Timer.invoke, hle]
    · rcases t with ⟨a, e⟩
      cases a <;>
        simp_all [Timer.invoke, Timer.set, Timer.cancel, Timer.start]

theorem timer_invoke_rearm_witness :
    Timer.invoke 2 { active := true, expire := 5 } =
      (false, { active := true, expire := 5 },
       ({ active := true, expire := 5 } : Timer).cancel.2.2 ++
         [MuxEvent.timerSet ((5 : ℚ) - 2), MuxEvent.timerStart]) :=
  (timer_invoke_fires_iff_expired { active := true, expire := 5 } 2).2 (by norm_num)

/-- C3: `Timer::start`, `Timer::cancel`, `WriteWatcher::resume` and
`WriteWatcher::cancel` return true exactly when they flip the active flag
to the target state, always leave the flag in the target state, and a
second call in the same direction returns false and leaves the watcher
state untouched with no multiplexer call. -/
theorem watcher_ops_idempotent (t : Timer) (w : WriteWatcher) :
    (t.start.1 = true ↔ t.active = false) ∧ t.start.2.1.active = true ∧
    t.start.2.1.start = (false, t.start.2.1, []) ∧
    (t.cancel.1 = true ↔ t.active = true) ∧ t.cancel.2.1.active = false ∧
    t.cancel.2.1.cancel = (false, t.cancel.2.1, []) ∧
    (w.resume.1 = true ↔ w.active = false) ∧ w.resume.2.1.active = true ∧
    w.resume.2.1.resume = (false, w.resume.2.1, []) ∧
    (w.cancel.1 = true ↔ w.active = true) ∧ w.cancel.2.1.active = false ∧
    w.cancel.2.1.cancel = (false, w.cancel.2.1, []) := by
  rcases t with ⟨a, e⟩
  rcases w with ⟨b, f⟩
  cases a <;> cases b <;>
    simp [Timer.start, Timer.cancel, WriteWatcher.resume, WriteWatcher.cancel]

theorem watcher_ops_idempotent_witness :
    (({ active := false, expire := 3 } : Timer).start.1 = true) ∧
    (({ active := false, fd := 4 } : WriteWatcher).resume.2.1.resume =
      (false, ({ active := false, fd := 4 } : WriteWatcher).resume.2.1, [])) := by
  have h := watcher_ops_idempotent { active := false, expire := 3 } { active := false, fd := 4 }
  exact ⟨h.1.mpr rfl, h.2.2.2.2.2.2.2.2.1⟩

/-- C4: the timer state machine.  Starting an idle timer arms it,
cancelling an armed timer returns it to idle, and when `invoke` fires
(`_expire <= now()`) the active flag is cleared before the user callback
runs (the callback observes an inactive timer) and no multiplexer call
re-registers the deadline, so a fired single-shot timer is idle and fires
at most once per arming unless explicitly restarted. -/
theorem timer_state_machine (t : Timer) (now : ℚ) :
    (t.active = false → t.start = (true, { t with active := true }, [MuxEvent.timerStart])) ∧
    (t.active = true → t.cancel = (true, { t with active := false }, [MuxEvent.timerStop])) ∧
    (t.expire ≤ now →
      Timer.invoke now t = (true, { t with active := false }, [])) := by
  refine ⟨fun h => ?_, fun h => ?_, fun h => ?_⟩
  · simp [Timer.start, h]
  · simp [Timer.cancel, h]
  · simp [Timer.invoke, h]

theorem timer_state_machine_witness :
    Timer.invoke 5 { active := true, expire := 3 } =
      (true, { active := false, expire := 3 }, []) := by
  have h := (timer_state_machine { active := true, expire := 3 } 5).2.2 (by norm_num)
  simpa using h

/-- C6: constructing a timer arms it (the deadline is initialised and
`ev_timer_start` issued, leaving it active) and constructing a write
watcher resumes it; destroying either runs `cancel()` as a side effect,
leaving it inactive. -/
theorem construction_arms_destruction_cancels (now timeout : ℚ) (fd : ℤ)
    (t : Timer) (w : WriteWatcher) :
    Timer.construct now timeout =
      ({ active := true, expire := now + timeout },
       [MuxEvent.timerInit timeout, MuxEvent.timerStart]) ∧
    WriteWatcher.construct fd =
      ({ active := true, fd := fd }, [MuxEvent.ioInit fd, MuxEvent.ioStart]) ∧
    Timer.destruct t = (t.cancel.2.1, t.cancel.2.2) ∧
    (Timer.destruct t).1.active = false ∧
    WriteWatcher.destruct w = (w.cancel.2.1, w.cancel.2.2) ∧
    (WriteWatcher.destruct w).1.active = false := by
  refine ⟨?_, ?_, rfl, ?_, rfl, ?_⟩
  · simp [Timer.construct, Timer.initialize, Timer.start]
  · simp [WriteWatcher.construct, WriteWatcher.initialize, WriteWatcher.resume]
  · rcases t with ⟨a, e⟩; cases a <;> simp [Timer.destruct, Timer.cancel]
  · rcases w with ⟨b, f⟩; cases b <;> simp [WriteWatcher.destruct, WriteWatcher.cancel]

/-- C10: each operation of `Timer` and `WriteWatcher` keeps the
multiplexer-side registration bit equal to the active flag (taking the
registration bit equal to the flag before the call, folding the
operation's multiplexer trace yields the flag after the call), and the
multiplexer start call is issued exactly on a false-to-true transition of
the active flag while the stop call is issued exactly on a true-to-false
transition. -/
theorem mux_registration_matches_active (t : Timer) (w : WriteWatcher) (now timeout : ℚ) :
    timerRegAfter t.active t.start.2.2 = t.start.2.1.active ∧
    timerRegAfter t.active t.cancel.2.2 = t.cancel.2.1.active ∧
    timerRegAfter t.active (Timer.set now timeout t).2.2 = (Timer.set now timeout t).2.1.active ∧
    ioRegAfter w.active w.cancel.2.2 = w.cancel.2.1.active ∧
    ioRegAfter w.active w.resume.2.2 = w.resume.2.1.active ∧
    (MuxEvent.timerStart ∈ t.start.2.2 ↔ (t.active = false ∧ t.start.2.1.active = true)) ∧
    (MuxEvent.timerStop ∈ t.cancel.2.2 ↔ (t.active = true ∧ t.cancel.2.1.active = false)) ∧
    (MuxEvent.ioStart ∈ w.resume.2.2 ↔ (w.active = false ∧ w.resume.2.1.active = true)) ∧
    (MuxEvent.ioStop ∈ w.cancel.2.2 ↔ (w.active = true ∧ w.cancel.2.1.active = false)) := by
  rcases t with ⟨a, e⟩
  rcases w with ⟨b, f⟩
  cases a <;> cases b <;> by_cases hc : now + timeout < e <;>
    simp [Timer.start, Timer.cancel, Timer.set, WriteWatcher.cancel, WriteWatcher.resume,
          timerRegAfter, ioRegAfter, hc]

theorem mux_registration_matches_active_witness :
    timerRegAfter true (Timer.set 0 7 { active := true, expire := 5 }).2.2 =
      (Timer.set 0 7 { active := true, expire := 5 }).2.1.active ∧
    MuxEvent.ioStop ∈ ({ active := true, fd := 4 } : WriteWatcher).cancel.2.2 := by
  have h := mux_registration_matches_active
    { active := true, expire := 5 } { active := true, fd := 4 } 0 7
  exact ⟨h.2.2.1, (h.2.2.2.2.2.2.2.2).mpr ⟨rfl, rfl⟩⟩

end React
